import Mathlib

/-!
Verification of the patient ingestion-and-classification pipeline
(sanitizer, risk scorer, classifiers, paginated fetcher).

Shallow embedding conventions:
* Python scalar values (`None`, `bool`, `int`, `float`, `str`) are embedded as
  the inductive `PyVal`, with floats as exact rationals.  The non-finite
  floats `inf`/`-inf`/`nan` are covered by a second, full-domain embedding
  (`PyFloat`, `PyValX`, `pyIntEX`, `sanitize_patientEX`) that carries the
  Python exception flow explicitly: `int(±inf)` raises `OverflowError`, which
  the sanitizer's `except (ValueError, TypeError)` clauses do not catch — the
  one input class on which the real sanitizer propagates an exception.
  Composite values (lists/objects) behave, for every code path modelled
  below, like any other wrong-typed scalar (a `TypeError` inside
  `int()`/`float()` and a non-placeholder `str()`), so they are omitted.
* A raw record is an association list from field name to `PyVal`; `pyGet`
  models `dict.get(key)` (missing key and stored `None` both give `None`,
  exactly as in the Python code, which never distinguishes them).
* `str.strip()`, `str.upper()`, `str.split("/")`, `int(...)` and `float(...)`
  are modelled character-list-level by `pyStrip`, `pyUpper`, `pySplitSlash`,
  `pyIntOfString` and `pyFloatOfString`; the integer/float literal grammars
  follow Python (optional sign, digit groups with single internal underscores,
  optional fraction and exponent).  Unicode-only niceties (non-ASCII digits,
  exotic whitespace) and the textual literals `inf`/`nan` are outside the model.
* `str(float)` formatting is modelled by `floatRepr`, a decimal-like rendering
  `"<num>.<den>"`; every property used about it (it contains `'.'`, hence is
  neither a placeholder token nor of the form `digits/digits`) is shared with
  Python's real float formatting.
-/

/- Batteries marks the `Rat` arithmetic operations `[irreducible]`, which
blocks `decide`/`rfl` evaluation of concrete rational computations during
elaboration (the kernel itself unfolds them fine).  Restore the default
reducibility locally so concrete runs of the embedded code evaluate. -/
attribute [local semireducible] Rat.ofScientific Rat.mul Rat.add Rat.sub Rat.inv

/-- A Python scalar value as it can appear in a raw upstream record. -/
inductive PyVal where
  | none
  | bool (b : Bool)
  | int (n : Int)
  | float (q : Rat)
  | str (s : String)
  deriving DecidableEq, Repr

/-- A raw record: an association list from field name to value (a Python dict). -/
abbrev PyDict := List (String × PyVal)

/-- `d.get(k)`: the first binding of `k`, or Python `None` when absent. -/
def pyGet (d : PyDict) (k : String) : PyVal :=
  match d.find? (fun kv => kv.1 == k) with
  | some kv => kv.2
  | Option.none => PyVal.none

/-- The canonical patient record (`patient.Patient`). -/
structure Patient where
  patient_id : String
  age : Option Int
  blood_pressure : Option String
  temperature : Option Rat
  deriving DecidableEq, Repr

/-- `Patient.to_dict` from `patient.py`. -/
def Patient.to_dict (p : Patient) : PyDict :=
  [("patient_id", PyVal.str p.patient_id),
   ("age", match p.age with | some n => PyVal.int n | Option.none => PyVal.none),
   ("blood_pressure",
     match p.blood_pressure with | some s => PyVal.str s | Option.none => PyVal.none),
   ("temperature",
     match p.temperature with | some q => PyVal.float q | Option.none => PyVal.none)]

/-- Python `str.strip()` (restricted to ASCII whitespace). -/
def pyStrip (s : String) : String :=
  ⟨((s.data.dropWhile Char.isWhitespace).reverse.dropWhile Char.isWhitespace).reverse⟩

/-- Python `str.upper()` (basic-latin case mapping). -/
def pyUpper (s : String) : String :=
  ⟨s.data.map Char.toUpper⟩

/-- Helper for `pySplitSlash`: accumulates the current segment (reversed). -/
def splitSlashAux : List Char → List Char → List String
  | [], cur => [⟨cur.reverse⟩]
  | '/' :: rest, cur => ⟨cur.reverse⟩ :: splitSlashAux rest []
  | c :: rest, cur => splitSlashAux rest (c :: cur)

/-- Python `s.split("/")`: e.g. `""` ↦ `[""]`, `"150/"` ↦ `["150", ""]`. -/
def pySplitSlash (s : String) : List String :=
  splitSlashAux s.data []

/-- The numeric value of a list of decimal digit characters. -/
def natOfDigits (ds : List Char) : Nat :=
  ds.foldl (fun acc c => acc * 10 + (c.toNat - 48)) 0

/-- Continuation of `pyDigitGroup`: digits with single internal underscores. -/
def pyDigitGroupAux : List Char → List Char → Option (List Char)
  | [], acc => some acc.reverse
  | '_' :: c :: rest, acc =>
      if c.isDigit then pyDigitGroupAux rest (c :: acc) else Option.none
  | c :: rest, acc =>
      if c.isDigit then pyDigitGroupAux rest (c :: acc) else Option.none

/-- Python's digit-group grammar `digit (["_"] digit)*`; yields the digits
with the underscores removed, or `none` when the group is malformed. -/
def pyDigitGroup : List Char → Option (List Char)
  | [] => Option.none
  | c :: rest => if c.isDigit then pyDigitGroupAux rest [c] else Option.none

/-- Python `int(s)` for a string argument (`None` = `ValueError`). -/
def pyIntOfString (s : String) : Option Int :=
  match (pyStrip s).data with
  | '+' :: rest => (pyDigitGroup rest).map (fun ds => (natOfDigits ds : Int))
  | '-' :: rest => (pyDigitGroup rest).map (fun ds => -(natOfDigits ds : Int))
  | cs => (pyDigitGroup cs).map (fun ds => (natOfDigits ds : Int))

/-- Scale a rational by a (possibly negative) power of ten. -/
def expScale (q : Rat) (e : Int) : Rat :=
  if 0 ≤ e then q * (10 : Rat) ^ e.toNat else q / (10 : Rat) ^ (-e).toNat

/-- The mantissa part of Python's float literal grammar:
`digits ["." [digits]] | "." digits`. -/
def parseMantissa (cs : List Char) : Option Rat :=
  match cs.span (fun c => c != '.') with
  | (intPart, []) => (pyDigitGroup intPart).map (fun ds => (natOfDigits ds : Rat))
  | (intPart, _ :: fracPart) =>
      if fracPart.contains '.' then Option.none
      else
        match intPart, fracPart with
        | [], [] => Option.none
        | [], _ =>
            (pyDigitGroup fracPart).map (fun ds =>
              (natOfDigits ds : Rat) / (10 : Rat) ^ ds.length)
        | _, [] => (pyDigitGroup intPart).map (fun ds => (natOfDigits ds : Rat))
        | _, _ =>
            match pyDigitGroup intPart, pyDigitGroup fracPart with
            | some ds1, some ds2 =>
                some ((natOfDigits ds1 : Rat)
                  + (natOfDigits ds2 : Rat) / (10 : Rat) ^ ds2.length)
            | _, _ => Option.none

/-- The exponent part of Python's float literal grammar. -/
def pyExpPart (cs : List Char) : Option Int :=
  match cs with
  | '+' :: rest => (pyDigitGroup rest).map (fun ds => (natOfDigits ds : Int))
  | '-' :: rest => (pyDigitGroup rest).map (fun ds => -(natOfDigits ds : Int))
  | _ => (pyDigitGroup cs).map (fun ds => (natOfDigits ds : Int))

/-- Python `float(s)` for a string argument (`None` = `ValueError`);
the non-finite literals `inf`/`infinity`/`nan` are outside the model. -/
def pyFloatOfString (s : String) : Option Rat :=
  match (pyStrip s).data with
  | '+' :: body => pyFloatBody 1 body
  | '-' :: body => pyFloatBody (-1) body
  | body => pyFloatBody 1 body
where
  /-- Parse `mantissa [("e"|"E") exponent]` and apply the sign. -/
  pyFloatBody (sign : Rat) (body : List Char) : Option Rat :=
    match body.span (fun c => c != 'e' && c != 'E') with
    | (mant, []) => (parseMantissa mant).map (fun q => sign * q)
    | (mant, _ :: exps) =>
        match parseMantissa mant, pyExpPart exps with
        | some q, some e => some (sign * expScale q e)
        | _, _ => Option.none

/-- Python `int(f)` for a (finite) float: truncation toward zero. -/
def pyTruncRat (q : Rat) : Int :=
  if q < 0 then -(-q).floor else q.floor

/-- `int(v)` on the finite-float domain, with the caught conversion errors
(`TypeError` on `None`, `ValueError` on a non-numeric string) collapsed to
`none`; the restriction of `pyIntEX` below to finite values. -/
def pyTryInt : PyVal → Option Int
  | PyVal.none => Option.none
  | PyVal.bool b => some (if b then 1 else 0)
  | PyVal.int n => some n
  | PyVal.float q => some (pyTruncRat q)
  | PyVal.str s => pyIntOfString s

/-- `float(v)` on the finite-float domain, with the caught conversion errors
collapsed to `none`; the restriction of `pyFloatEX` below to finite values. -/
def pyTryFloat : PyVal → Option Rat
  | PyVal.none => Option.none
  | PyVal.bool b => some (if b then 1 else 0)
  | PyVal.int n => some (n : Rat)
  | PyVal.float q => some q
  | PyVal.str s => pyFloatOfString s

/-- Python `str(v)`. -/
def floatRepr (q : Rat) : String :=
  ⟨(toString q.num).data ++ '.' :: (toString q.den).data⟩

/-- Python `str(v)` on our scalar domain. -/
def pyStr : PyVal → String
  | PyVal.none => "None"
  | PyVal.bool true => "True"
  | PyVal.bool false => "False"
  | PyVal.int n => toString n
  | PyVal.float q => floatRepr q
  | PyVal.str s => s

/-- The blood-pressure placeholder tokens of `sanitizer.validate_blood_pressure`. -/
def bp_placeholders : List String :=
  ["N/A", "NA", "INVALID", "UNKNOWN", "INVALID_BP_FORMAT"]

/-- The regex `^(\d+)/(\d+)$` of `sanitizer.validate_blood_pressure`: a
non-empty maximal digit prefix, a single `'/'`, and a non-empty all-digit
tail (a second `'/'` would fail the tail's digit test). -/
def bpRegexMatch (s : String) : Bool :=
  match s.data.span Char.isDigit with
  | (intPart, r :: tail) =>
      r = '/' && !intPart.isEmpty && !tail.isEmpty && tail.all Char.isDigit
  | (_, []) => false

/-- `sanitizer.validate_blood_pressure`.  (The source's fallback branch for
incomplete forms like `"150/"` also returns `None`, so the two rejection
branches collapse to one here.) -/
def validate_blood_pressure (bp_value : PyVal) : Option String :=
  if bp_value = PyVal.none ∨ bp_value = PyVal.str "" then Option.none
  else
    let bp_str := pyStrip (pyStr bp_value)
    if bp_placeholders.contains (pyUpper bp_str) then Option.none
    else if bpRegexMatch bp_str then some bp_str
    else Option.none

/-- `sanitizer.validate_age`: `int(age_value)` with `ValueError`/`TypeError`
caught to `None`. -/
def validate_age (age_value : PyVal) : Option Int :=
  if age_value = PyVal.none ∨ age_value = PyVal.str "" then Option.none
  else pyTryInt age_value

/-- The temperature placeholder tokens of `sanitizer.validate_temperature`. -/
def temp_placeholders : List String :=
  ["TEMP_ERROR", "INVALID", "UNKNOWN", "N/A", "NA"]

/-- `sanitizer.validate_temperature`. -/
def validate_temperature (temp_value : PyVal) : Option Rat :=
  if temp_value = PyVal.none ∨ temp_value = PyVal.str "" then Option.none
  else if temp_placeholders.contains (pyUpper (pyStrip (pyStr temp_value))) then Option.none
  else pyTryFloat temp_value

/-- `sanitizer.sanitize_patient`. -/
def sanitize_patient (patient_data : PyDict) : Patient :=
  { patient_id := pyStr (pyGet patient_data "patient_id")
    age := validate_age (pyGet patient_data "age")
    blood_pressure := validate_blood_pressure (pyGet patient_data "blood_pressure")
    temperature := validate_temperature (pyGet patient_data "temperature") }

/-- `risk_scorer.calculate_bp_risk` (the canonical blood-pressure field is an
optional string; Python's falsy test accepts `None` and `""`). -/
def calculate_bp_risk (bp : Option String) : Nat :=
  match bp with
  | Option.none => 0
  | some s =>
    if s = "" then 0
    else
      match pySplitSlash s with
      | [p1, p2] =>
          match pyIntOfString (pyStrip p1), pyIntOfString (pyStrip p2) with
          | some systolic, some diastolic =>
              let systolic_risk : Nat :=
                if systolic < 120 then 0
                else if systolic ≤ 129 then 1
                else if systolic ≤ 139 then 2
                else 3
              let diastolic_risk : Nat :=
                if diastolic < 80 then 0
                else if diastolic ≤ 89 then 2
                else 3
              max systolic_risk diastolic_risk
          | _, _ => 0
      | _ => 0

/-- `risk_scorer.calculate_temp_risk`. -/
def calculate_temp_risk (temperature : Option Rat) : Nat :=
  match temperature with
  | Option.none => 0
  | some t =>
      if t ≤ (99.5 : Rat) then 0
      else if (99.6 : Rat) ≤ t ∧ t ≤ (100.9 : Rat) then 1
      else 2

/-- `risk_scorer.calculate_age_risk`. -/
def calculate_age_risk (age : Option Int) : Nat :=
  match age with
  | Option.none => 0
  | some a =>
      if a < 40 then 0
      else if a ≤ 65 then 1
      else 2

/-- `risk_scorer.calculate_total_risk`. -/
def calculate_total_risk (patient : Patient) : Nat :=
  calculate_bp_risk patient.blood_pressure
    + calculate_temp_risk patient.temperature
    + calculate_age_risk patient.age

/-- `high_risk_classifier.get_high_risk_patients`. -/
def get_high_risk_patients : List Patient → List String
  | [] => []
  | p :: rest =>
      if 4 ≤ calculate_total_risk p then p.patient_id :: get_high_risk_patients rest
      else get_high_risk_patients rest

/-- The loop condition of `fever_classifier.get_fever_patients`. -/
def feverCheck (p : Patient) : Bool :=
  match p.temperature with
  | some t => decide ((99.6 : Rat) ≤ t)
  | Option.none => false

/-- `fever_classifier.get_fever_patients`. -/
def get_fever_patients : List Patient → List String
  | [] => []
  | p :: rest =>
      if feverCheck p then p.patient_id :: get_fever_patients rest
      else get_fever_patients rest

/-- `data_quality._is_valid_bp`. -/
def _is_valid_bp (bp : Option String) : Bool :=
  match bp with
  | Option.none => false
  | some s =>
      match pySplitSlash s with
      | [p1, p2] =>
          match pyIntOfString (pyStrip p1), pyIntOfString (pyStrip p2) with
          | some systolic, some diastolic =>
              if systolic ≤ 0 ∨ 300 < systolic ∨ diastolic ≤ 0 ∨ 200 < diastolic then false
              else true
          | _, _ => false
      | _ => false

/-- `data_quality._is_valid_age` (a canonical age is `None` or an `int`). -/
def _is_valid_age (age : Option Int) : Bool :=
  match age with
  | Option.none => false
  | some a => if a < 0 ∨ 150 < a then false else true

/-- `data_quality._is_valid_temperature`. -/
def _is_valid_temperature (temperature : Option Rat) : Bool :=
  match temperature with
  | Option.none => false
  | some t => if t ≤ 0 ∨ (115 : Rat) < t then false else true

/-- The `has_issue` flag of `data_quality.get_data_quality_issues`. -/
def hasIssue (p : Patient) : Bool :=
  !_is_valid_bp p.blood_pressure || !_is_valid_age p.age
    || !_is_valid_temperature p.temperature

/-- `data_quality.get_data_quality_issues`. -/
def get_data_quality_issues : List Patient → List String
  | [] => []
  | p :: rest =>
      if hasIssue p then p.patient_id :: get_data_quality_issues rest
      else get_data_quality_issues rest

/-- `max_retries = 10` in `routes.getPatients`. -/
def max_retries : Nat := 10

/-- `backoff_factor = 1` in `routes.getPatients`. -/
def backoff_factor : Nat := 1

/-- The parsed JSON body of a 200 response: the optional `"data"` array of raw
records, and the optional `"pagination"` object collapsed to its effective
`hasNext` value (`data["pagination"].get("hasNext", False)`). -/
structure PageBody where
  data : Option (List PyDict)
  pagination : Option Bool
  deriving Repr

/-- One upstream response as `routes.getPatients` observes it: a parsed 200
body, a non-200 status code, or a `requests.RequestException` (covering
transport failures; a 200 whose body fails to parse also surfaces this way). -/
inductive HttpResp where
  | ok (body : PageBody)
  | status (code : Nat)
  | exn
  deriving Repr

/-- The outcome of the per-page retry loop of `routes.getPatients`:
`success` is the status-200 branch (records of the page, new `has_next`);
`abandon` is the `else` branch (non-429 client error or a final failed
attempt), which sets `has_next = False` and `break`s; `fellThrough` means the
`for` loop exhausted its attempts without `break`ing — only possible when
every attempt got HTTP 429 — leaving `has_next` at its previous value `True`. -/
inductive PageOutcome where
  | success (records : List PyDict) (hasNext : Bool)
  | abandon
  | fellThrough
  deriving Repr, DecidableEq

/-- The status-200 branch: sanitize every raw record of the `"data"` field
(absent field contributes nothing), and read the pagination flag
(absent `"pagination"` means `has_next = False`). -/
def processBody (body : PageBody) : List PyDict × Bool :=
  ((match body.data with
    | some raws => raws.map (fun raw => (sanitize_patient raw).to_dict)
    | Option.none => []),
   (match body.pagination with
    | some hn => hn
    | Option.none => false))

/-- The `for attempt in range(max_retries)` loop of `routes.getPatients` for
one page, invoked on the attempt list `List.range max_retries`; also returns
the list of backoff sleeps it performed (in seconds).  `rest = []` is exactly
the source's `attempt == max_retries - 1`. -/
def runAttempts (oracle : Nat → Nat → HttpResp) (page : Nat) :
    List Nat → PageOutcome × List Nat
  | [] => (PageOutcome.fellThrough, [])
  | attempt :: rest =>
      match oracle page attempt with
      | HttpResp.ok body =>
          (PageOutcome.success (processBody body).1 (processBody body).2, [])
      | HttpResp.status code =>
          if code = 429 then
            let r := runAttempts oracle page rest
            (r.1, 2 * 2 ^ attempt :: r.2)
          else if 500 ≤ code ∧ rest ≠ [] then
            let r := runAttempts oracle page rest
            (r.1, backoff_factor * 2 ^ attempt :: r.2)
          else (PageOutcome.abandon, [])
      | HttpResp.exn =>
          if rest ≠ [] then
            let r := runAttempts oracle page rest
            (r.1, backoff_factor * 2 ^ attempt :: r.2)
          else (PageOutcome.abandon, [])

/-- The `while has_next` loop of `routes.getPatients`.  The Python loop need
not terminate (e.g. every page rate-limited forever), so it is modelled with
explicit fuel bounding the number of page iterations; every theorem below
supplies enough fuel for the run it speaks about.  Returns the accumulated
sanitized records and the log of sleeps (the trailing `1`s are the fixed
inter-page delays). -/
def fetchLoop (oracle : Nat → Nat → HttpResp) :
    Nat → Nat → List PyDict → List Nat → List PyDict × List Nat
  | 0, _, acc, waits => (acc, waits)
  | fuel + 1, page, acc, waits =>
      match runAttempts oracle page (List.range max_retries) with
      | (PageOutcome.success recs hn, ws) =>
          if hn then fetchLoop oracle fuel (page + 1) (acc ++ recs) (waits ++ ws ++ [1])
          else (acc ++ recs, waits ++ ws)
      | (PageOutcome.abandon, ws) => (acc, waits ++ ws)
      | (PageOutcome.fellThrough, ws) =>
          fetchLoop oracle fuel (page + 1) acc (waits ++ ws ++ [1])

/-- `routes.getPatients`: pages are requested from page 1 on.  Only the
`"data"` list of the returned envelope is modelled (plus the sleep log); the
synthetic pagination/metadata fields of the envelope are constants over it. -/
def getPatients (oracle : Nat → Nat → HttpResp) (fuel : Nat) : List PyDict × List Nat :=
  fetchLoop oracle fuel 1 [] []

/-- A concrete upstream used against claim C6: page 1 succeeds with one record
and `hasNext = true`, page 2 answers HTTP 429 to every attempt, page 3
succeeds with one record and `hasNext = false`. -/
def oracle429 : Nat → Nat → HttpResp
  | 1, _ => HttpResp.ok ⟨some [[("patient_id", PyVal.str "p1")]], some true⟩
  | 2, _ => HttpResp.status 429
  | _, _ => HttpResp.ok ⟨some [[("patient_id", PyVal.str "p3")]], some false⟩

/-- The parse stage of `risk_scorer.calculate_bp_risk` (claim C2's notion of a
blood-pressure value "parseable as S/D with integer S and D"), restated from
the same source lines: Python-falsy values, strings without exactly one `"/"`,
and segments `int()` rejects do not parse. -/
def bpParse : Option String → Option (Int × Int)
  | Option.none => Option.none
  | some s =>
      if s = "" then Option.none
      else
        match pySplitSlash s with
        | [p1, p2] =>
            match pyIntOfString (pyStrip p1), pyIntOfString (pyStrip p2) with
            | some systolic, some diastolic => some (systolic, diastolic)
            | _, _ => Option.none
        | _ => Option.none

/-- Claim C5's blood-pressure range validity, written from the spec's words:
parseable as `"int/int"` with `0 < systolic ≤ 300` and `0 < diastolic ≤ 200`. -/
def spec_bp_range_valid : Option String → Bool
  | Option.none => false
  | some s =>
      match pySplitSlash s with
      | [a, b] =>
          match pyIntOfString (pyStrip a), pyIntOfString (pyStrip b) with
          | some systolic, some diastolic =>
              decide (0 < systolic ∧ systolic ≤ 300 ∧ 0 < diastolic ∧ diastolic ≤ 200)
          | _, _ => false
      | _ => false

/-- Claim C5's age range validity, written from the spec's words:
numeric with `0 ≤ age ≤ 150`. -/
def spec_age_range_valid : Option Int → Bool
  | Option.none => false
  | some a => decide (0 ≤ a ∧ a ≤ 150)

/-- Claim C5's temperature range validity, written from the spec's words:
numeric with `0 < temperature ≤ 115`. -/
def spec_temp_range_valid : Option Rat → Bool
  | Option.none => false
  | some t => decide (0 < t ∧ t ≤ (115 : Rat))

theorem calculate_bp_risk_le_three : ∀ bp, calculate_bp_risk bp ≤ 3
  | Option.none => by simp [calculate_bp_risk]
  | some s => by
      simp only [calculate_bp_risk]
      split
      · omega
      · split
        · split
          · split_ifs <;> decide
          · omega
        · omega

theorem calculate_temp_risk_le_two : ∀ t, calculate_temp_risk t ≤ 2
  | Option.none => by simp [calculate_temp_risk]
  | some q => by
      simp only [calculate_temp_risk]
      split_ifs <;> omega

theorem calculate_age_risk_le_two : ∀ a, calculate_age_risk a ≤ 2
  | Option.none => by simp [calculate_age_risk]
  | some n => by
      simp only [calculate_age_risk]
      split_ifs <;> omega

/-- Claim C1: for every canonical patient, `calculate_total_risk` equals the
sum of `calculate_bp_risk`, `calculate_temp_risk` and `calculate_age_risk`;
each sub-score lies within its documented bound (BP 0–3, temperature 0–2,
age 0–2), hence the total lies in 0–8.  The scores are naturals, so the lower
bounds hold by type; the functions are plain Lean functions of the canonical
input, so determinism (identical input, identical total) is inherent. -/
theorem total_risk_is_bounded_sum_of_subscores (p : Patient) :
    calculate_total_risk p
        = calculate_bp_risk p.blood_pressure + calculate_temp_risk p.temperature
            + calculate_age_risk p.age
      ∧ calculate_bp_risk p.blood_pressure ≤ 3
      ∧ calculate_temp_risk p.temperature ≤ 2
      ∧ calculate_age_risk p.age ≤ 2
      ∧ calculate_total_risk p ≤ 8 := by
  refine ⟨rfl, calculate_bp_risk_le_three _, calculate_temp_risk_le_two _,
    calculate_age_risk_le_two _, ?_⟩
  have h1 := calculate_bp_risk_le_three p.blood_pressure
  have h2 := calculate_temp_risk_le_two p.temperature
  have h3 := calculate_age_risk_le_two p.age
  unfold calculate_total_risk
  omega

theorem systolic_bucket_eq (s : Int) :
    (if s < 120 then (0 : Nat) else if s ≤ 129 then 1 else if s ≤ 139 then 2 else 3)
      = (if s < 120 then 0 else if 120 ≤ s ∧ s ≤ 129 then 1
         else if 130 ≤ s ∧ s ≤ 139 then 2 else 3) := by
  split_ifs <;> omega

theorem diastolic_bucket_eq (d : Int) :
    (if d < 80 then (0 : Nat) else if d ≤ 89 then 2 else 3)
      = (if d < 80 then 0 else if 80 ≤ d ∧ d ≤ 89 then 2 else 3) := by
  split_ifs <;> omega

/-- Claim C2: `calculate_bp_risk` returns 0 when the blood pressure is `None`
or not parseable as `"S/D"` with integer `S` and `D`, and otherwise returns
the maximum of the systolic bucket (S<120 → 0, 120–129 → 1, 130–139 → 2,
≥140 → 3) and the diastolic bucket (D<80 → 0, 80–89 → 2, ≥90 → 3); the
boundary values 119/120/129/130/139/140 (systolic) and 79/80/89/90
(diastolic) land exactly on those bucket edges. -/
theorem bp_risk_is_max_of_buckets (bp : Option String) :
    calculate_bp_risk bp
        = (match bpParse bp with
           | Option.none => 0
           | some (s, d) =>
               max (if s < 120 then 0 else if 120 ≤ s ∧ s ≤ 129 then 1
                    else if 130 ≤ s ∧ s ≤ 139 then 2 else 3)
                   (if d < 80 then 0 else if 80 ≤ d ∧ d ≤ 89 then 2 else 3))
      ∧ calculate_bp_risk (some "119/70") = 0
      ∧ calculate_bp_risk (some "120/70") = 1
      ∧ calculate_bp_risk (some "129/70") = 1
      ∧ calculate_bp_risk (some "130/70") = 2
      ∧ calculate_bp_risk (some "139/70") = 2
      ∧ calculate_bp_risk (some "140/70") = 3
      ∧ calculate_bp_risk (some "110/79") = 0
      ∧ calculate_bp_risk (some "110/80") = 2
      ∧ calculate_bp_risk (some "110/89") = 2
      ∧ calculate_bp_risk (some "110/90") = 3 := by
  refine ⟨?_, by decide, by decide, by decide, by decide, by decide, by decide,
    by decide, by decide, by decide, by decide⟩
  rcases bp with _ | s
  · rfl
  · simp only [calculate_bp_risk, bpParse]
    split
    · rfl
    · split
      · split
        · rw [systolic_bucket_eq, diastolic_bucket_eq]
        · rfl
      · rfl

/-- Claim C3 counterexample: the claimed numeric buckets of
`calculate_temp_risk` are not exhaustive: 99.55 °F lies in none of them
(neither ≤ 99.5 nor in [99.6, 100.9] nor ≥ 101.0), and the code returns
risk 2 for it although the claim says risk 2 is returned exactly when
T ≥ 101.0. -/
theorem temp_risk_gap_counterexample :
    calculate_temp_risk (some (99.55 : Rat)) = 2
      ∧ ¬((101.0 : Rat) ≤ (99.55 : Rat))
      ∧ ¬((99.55 : Rat) ≤ (99.5 : Rat))
      ∧ ¬((99.6 : Rat) ≤ (99.55 : Rat) ∧ (99.55 : Rat) ≤ (100.9 : Rat)) := by
  decide

/-- Claim C3 amended: `calculate_temp_risk` returns 0 for a missing
temperature; for numeric T it returns 0 exactly when T ≤ 99.5, returns 1
exactly when 99.6 ≤ T ≤ 100.9, and returns 2 exactly in the remaining case
T > 99.5 ∧ ¬(99.6 ≤ T ≤ 100.9) — which covers every T ≥ 101.0 but also the
gaps (99.5, 99.6) and (100.9, 101.0).  With the third bucket so amended, the
three numeric buckets are exhaustive and mutually exclusive. -/
theorem temp_risk_buckets (t : Rat) :
    calculate_temp_risk Option.none = 0
      ∧ (calculate_temp_risk (some t) = 0 ↔ t ≤ (99.5 : Rat))
      ∧ (calculate_temp_risk (some t) = 1 ↔ (99.6 : Rat) ≤ t ∧ t ≤ (100.9 : Rat))
      ∧ (calculate_temp_risk (some t) = 2
          ↔ (99.5 : Rat) < t ∧ ¬((99.6 : Rat) ≤ t ∧ t ≤ (100.9 : Rat)))
      ∧ ((101.0 : Rat) ≤ t → calculate_temp_risk (some t) = 2) := by
  refine ⟨rfl, ?_, ?_, ?_, ?_⟩ <;> simp only [calculate_temp_risk]
  · split_ifs with h1 h2 <;> simp [h1]
  · split_ifs with h1 h2
    · refine iff_of_false (by decide) ?_
      rintro ⟨ha, _⟩
      linarith [show (99.5 : Rat) < (99.6 : Rat) by norm_num]
    · exact iff_of_true rfl h2
    · exact iff_of_false (by decide) h2
  · split_ifs with h1 h2
    · refine iff_of_false (by decide) ?_
      rintro ⟨ha, _⟩
      linarith
    · refine iff_of_false (by decide) ?_
      rintro ⟨_, hn⟩
      exact hn h2
    · exact iff_of_true rfl ⟨not_le.mp h1, h2⟩
  · intro h
    split_ifs with h1 h2
    · exfalso
      linarith [show (99.5 : Rat) < (101.0 : Rat) by norm_num]
    · exfalso
      rcases h2 with ⟨_, h4⟩
      linarith [show (100.9 : Rat) < (101.0 : Rat) by norm_num]
    · rfl

/-- Witness for `temp_risk_buckets` at T = 101. -/
theorem temp_risk_buckets_witness : calculate_temp_risk (some (101 : Rat)) = 2 :=
  (temp_risk_buckets 101).2.2.2.2 (by decide)

theorem get_fever_patients_eq_filter (ps : List Patient) :
    get_fever_patients ps = (ps.filter feverCheck).map Patient.patient_id := by
  induction ps with
  | nil => rfl
  | cons p rest ih =>
      by_cases h : feverCheck p <;>
        simp [get_fever_patients, List.filter_cons, h, ih]

theorem get_high_risk_patients_eq_filter (ps : List Patient) :
    get_high_risk_patients ps
      = (ps.filter (fun p => decide (4 ≤ calculate_total_risk p))).map Patient.patient_id := by
  induction ps with
  | nil => rfl
  | cons p rest ih =>
      by_cases h : 4 ≤ calculate_total_risk p <;>
        simp [get_high_risk_patients, List.filter_cons, h, ih]

theorem get_data_quality_issues_eq_filter (ps : List Patient) :
    get_data_quality_issues ps = (ps.filter hasIssue).map Patient.patient_id := by
  induction ps with
  | nil => rfl
  | cons p rest ih =>
      by_cases h : hasIssue p <;>
        simp [get_data_quality_issues, List.filter_cons, h, ih]

/-- Claim C4: `get_fever_patients` outputs exactly the ids of the input
patients whose sanitized temperature is present and ≥ 99.6, in input order
(`feverCheck` is definitionally that predicate); the boundary value 99.5 is
excluded and 99.6 included; the check uses the sanitized temperature value
directly, independent of the risk buckets (99.6 lies in temp-risk bucket 1
and still qualifies for fever). -/
theorem fever_patients_iff_temp_ge (ps : List Patient) :
    get_fever_patients ps = (ps.filter feverCheck).map Patient.patient_id
      ∧ feverCheck = (fun p =>
          match p.temperature with
          | some t => decide ((99.6 : Rat) ≤ t)
          | Option.none => false)
      ∧ get_fever_patients
          [⟨"a", Option.none, Option.none, some (99.5 : Rat)⟩] = []
      ∧ get_fever_patients
          [⟨"a", Option.none, Option.none, some (99.6 : Rat)⟩] = ["a"]
      ∧ calculate_temp_risk (some (99.6 : Rat)) = 1 :=
  ⟨get_fever_patients_eq_filter ps, rfl, by decide, by decide, by decide⟩

theorem _is_valid_bp_eq_spec (bp : Option String) :
    _is_valid_bp bp = spec_bp_range_valid bp := by
  rcases bp with _ | s
  · rfl
  · simp only [_is_valid_bp, spec_bp_range_valid]
    split
    · split
      · split_ifs with h
        · symm
          rw [decide_eq_false_iff_not]
          omega
        · symm
          rw [decide_eq_true_eq]
          omega
      · rfl
    · rfl

theorem _is_valid_age_eq_spec (age : Option Int) :
    _is_valid_age age = spec_age_range_valid age := by
  rcases age with _ | a
  · rfl
  · simp only [_is_valid_age, spec_age_range_valid]
    split_ifs with h
    · symm
      rw [decide_eq_false_iff_not]
      omega
    · symm
      rw [decide_eq_true_eq]
      omega

theorem _is_valid_temperature_eq_spec (t : Option Rat) :
    _is_valid_temperature t = spec_temp_range_valid t := by
  rcases t with _ | q
  · rfl
  · simp only [_is_valid_temperature, spec_temp_range_valid]
    split_ifs with h
    · symm
      rw [decide_eq_false_iff_not]
      rintro ⟨h1, h2⟩
      rcases h with h | h <;> linarith
    · symm
      rw [decide_eq_true_eq]
      push_neg at h
      exact ⟨h.1, h.2⟩

theorem hasIssue_eq_not_range_valid (p : Patient) :
    hasIssue p = !(spec_bp_range_valid p.blood_pressure
        && spec_age_range_valid p.age && spec_temp_range_valid p.temperature) := by
  simp only [hasIssue, _is_valid_bp_eq_spec, _is_valid_age_eq_spec,
    _is_valid_temperature_eq_spec]
  cases spec_bp_range_valid p.blood_pressure <;>
    cases spec_age_range_valid p.age <;>
      cases spec_temp_range_valid p.temperature <;> rfl

/-- Claim C5: `get_data_quality_issues` flags exactly the patients that fail
at least one range-validity check (blood pressure parseable as `"int/int"`
with `0 < systolic ≤ 300` and `0 < diastolic ≤ 200`; age numeric in
`[0, 150]`; temperature numeric in `(0, 115]`), in input order.  The check is
independent of the sanitizer's format check (`"999/999"` passes sanitization
yet its carrier is flagged), and a field sanitized to `None` always fails its
check, so a patient with any `None` field is always flagged. -/
theorem data_quality_iff_range_invalid (ps : List Patient) :
    get_data_quality_issues ps
        = (ps.filter (fun p => !(spec_bp_range_valid p.blood_pressure
              && spec_age_range_valid p.age
              && spec_temp_range_valid p.temperature))).map Patient.patient_id
      ∧ (∀ p : Patient,
          p.blood_pressure = Option.none ∨ p.age = Option.none
              ∨ p.temperature = Option.none →
            get_data_quality_issues [p] = [p.patient_id])
      ∧ validate_blood_pressure (PyVal.str "999/999") = some "999/999"
      ∧ get_data_quality_issues
          [⟨"x", some 50, some "999/999", some (98 : Rat)⟩] = ["x"] := by
  refine ⟨?_, ?_, by decide, by decide⟩
  · rw [get_data_quality_issues_eq_filter]
    congr 1
    apply List.filter_congr
    intro p _
    exact hasIssue_eq_not_range_valid p
  · intro p hp
    have hIssue : hasIssue p = true := by
      simp only [hasIssue]
      rcases hp with h | h | h <;>
        simp [_is_valid_bp, _is_valid_age, _is_valid_temperature, h]
    simp [get_data_quality_issues, hIssue]

/-- Witness for `data_quality_iff_range_invalid`: a patient with a `None`
age is flagged. -/
theorem data_quality_iff_range_invalid_witness :
    get_data_quality_issues
        [⟨"w", Option.none, some "120/80", some (98 : Rat)⟩] = ["w"] :=
  (data_quality_iff_range_invalid []).2.1
    ⟨"w", Option.none, some "120/80", some (98 : Rat)⟩ (Or.inr (Or.inl rfl))

/-- Claim C9: each classifier's output is exactly the filtered projection of
its input — the `patient_id` of each satisfying patient, in input order — so
insertion order is preserved, duplicated input patients produce duplicated
ids, and no deduplication occurs (shown concretely for all three classifiers
on a duplicated patient). -/
theorem classifiers_are_filtered_projections (ps : List Patient) :
    get_high_risk_patients ps
        = (ps.filter (fun p => decide (4 ≤ calculate_total_risk p))).map Patient.patient_id
      ∧ get_fever_patients ps = (ps.filter feverCheck).map Patient.patient_id
      ∧ get_data_quality_issues ps = (ps.filter hasIssue).map Patient.patient_id
      ∧ get_high_risk_patients
          [⟨"dup", some 70, some "150/95", some (101 : Rat)⟩,
           ⟨"dup", some 70, some "150/95", some (101 : Rat)⟩] = ["dup", "dup"]
      ∧ get_fever_patients
          [⟨"dup", some 70, some "150/95", some (101 : Rat)⟩,
           ⟨"dup", some 70, some "150/95", some (101 : Rat)⟩] = ["dup", "dup"]
      ∧ get_data_quality_issues
          [⟨"bad", Option.none, Option.none, Option.none⟩,
           ⟨"bad", Option.none, Option.none, Option.none⟩] = ["bad", "bad"] :=
  ⟨get_high_risk_patients_eq_filter ps, get_fever_patients_eq_filter ps,
   get_data_quality_issues_eq_filter ps, by decide, by decide, by decide⟩

/-- Claim C10: when the raw `patient_id` field is absent or null, the
sanitized `patient_id` is the literal four-character string "None" (Python's
string coercion of `None`); `Patient.patient_id` has type `String`, so it is
never null for any input; and a genuine raw id `"None"` sanitizes to the same
value, so the two cases are indistinguishable downstream. -/
theorem missing_patient_id_becomes_string_None (d : PyDict) :
    (pyGet d "patient_id" = PyVal.none → (sanitize_patient d).patient_id = "None")
      ∧ (pyGet d "patient_id" = PyVal.str "None" →
          (sanitize_patient d).patient_id = "None") := by
  constructor <;> intro h <;> simp [sanitize_patient, h, pyStr]

/-- Witness for `missing_patient_id_becomes_string_None`: the empty raw
record (id absent) and a record whose id is the string "None". -/
theorem missing_patient_id_becomes_string_None_witness :
    (sanitize_patient []).patient_id = "None"
      ∧ (sanitize_patient [("patient_id", PyVal.str "None")]).patient_id = "None" :=
  ⟨(missing_patient_id_becomes_string_None []).1 rfl,
   (missing_patient_id_becomes_string_None [("patient_id", PyVal.str "None")]).2
     (by decide)⟩

theorem not_ws_of_digit {c : Char} (h : c.isDigit = true) : c.isWhitespace = false := by
  cases hw : c.isWhitespace
  · rfl
  · exfalso
    have hmem : c = ' ' ∨ c = '\t' ∨ c = '\r' ∨ c = '\n' := by
      simpa [Char.isWhitespace, or_assoc] using hw
    rcases hmem with e | e | e | e <;> subst e <;> exact absurd h (by decide)

theorem dropWhile_ws_eq_self {l : List Char}
    (h : ∀ c ∈ l, c.isWhitespace = false) :
    l.dropWhile Char.isWhitespace = l := by
  cases l with
  | nil => rfl
  | cons a t => simp [List.dropWhile_cons, h a (List.mem_cons_self a t)]

theorem pyStrip_eq_self {s : String}
    (h : ∀ c ∈ s.data, c.isWhitespace = false) : pyStrip s = s := by
  unfold pyStrip
  rw [dropWhile_ws_eq_self h,
    dropWhile_ws_eq_self (fun c hc => h c (List.mem_reverse.mp hc)),
    List.reverse_reverse]

theorem bpRegexMatch_chars {s : String} (h : bpRegexMatch s = true) :
    ∀ c ∈ s.data, c.isDigit = true ∨ c = '/' := by
  unfold bpRegexMatch at h
  rw [List.span_eq_take_drop] at h
  intro c hc
  have hdecomp : s.data.takeWhile Char.isDigit ++ s.data.dropWhile Char.isDigit
      = s.data := List.takeWhile_append_dropWhile Char.isDigit s.data
  rw [← hdecomp] at hc
  rcases List.mem_append.mp hc with hmem | hmem
  · exact Or.inl (List.mem_takeWhile_imp hmem)
  · cases hd : s.data.dropWhile Char.isDigit with
    | nil => rw [hd] at hmem; cases hmem
    | cons r tail =>
        rw [hd] at h hmem
        simp only [Bool.and_eq_true, decide_eq_true_eq, List.all_eq_true] at h
        obtain ⟨⟨⟨hr, _⟩, _⟩, hall⟩ := h
        rcases List.mem_cons.mp hmem with e | e
        · subst e; exact Or.inr hr
        · exact Or.inl (hall c e)

theorem bpRegexMatch_ne_empty {s : String} (h : bpRegexMatch s = true) : s ≠ "" := by
  intro e
  subst e
  exact absurd h (by decide)

theorem pyStrip_of_bpRegexMatch {s : String} (h : bpRegexMatch s = true) :
    pyStrip s = s :=
  pyStrip_eq_self (fun c hc => by
    rcases bpRegexMatch_chars h c hc with hd | he
    · exact not_ws_of_digit hd
    · subst he; decide)

theorem validate_bp_roundtrip {v : PyVal} {s : String}
    (h : validate_blood_pressure v = some s) :
    validate_blood_pressure (PyVal.str s) = some s := by
  simp only [validate_blood_pressure] at h
  split_ifs at h with h0 h1 h2
  all_goals simp only [Option.some.injEq, reduceCtorEq] at h
  subst h
  unfold validate_blood_pressure
  have hcond : ¬(PyVal.str (pyStrip (pyStr v)) = PyVal.none
      ∨ PyVal.str (pyStrip (pyStr v)) = PyVal.str "") := by
    rintro (e | e)
    · cases e
    · exact bpRegexMatch_ne_empty h2 (by injection e)
  rw [if_neg hcond]
  show (if bp_placeholders.contains (pyUpper (pyStrip (pyStrip (pyStr v)))) = true
      then Option.none
      else if bpRegexMatch (pyStrip (pyStrip (pyStr v))) = true
      then some (pyStrip (pyStrip (pyStr v))) else Option.none)
    = some (pyStrip (pyStr v))
  rw [pyStrip_of_bpRegexMatch h2]
  rw [if_neg h1, if_pos h2]

theorem mem_dropWhile_ws {c : Char} {l : List Char} (hw : c.isWhitespace = false)
    (hc : c ∈ l) : c ∈ l.dropWhile Char.isWhitespace := by
  induction l with
  | nil => cases hc
  | cons a t ih =>
      by_cases ha : a.isWhitespace
      · rw [List.dropWhile_cons]
        simp only [ha, if_true]
        rcases List.mem_cons.mp hc with e | m
        · subst e; rw [ha] at hw; cases hw
        · exact ih m
      · rw [List.dropWhile_cons]
        simp only [ha, if_false]
        exact hc

theorem pyStrip_mem {c : Char} {s : String} (hw : c.isWhitespace = false)
    (hc : c ∈ s.data) : c ∈ (pyStrip s).data := by
  show c ∈ ((s.data.dropWhile Char.isWhitespace).reverse.dropWhile
      Char.isWhitespace).reverse
  rw [List.mem_reverse]
  exact mem_dropWhile_ws hw (List.mem_reverse.mpr (mem_dropWhile_ws hw hc))

theorem float_temp_placeholder_free (q : Rat) :
    ¬(temp_placeholders.contains (pyUpper (pyStrip (pyStr (PyVal.float q)))) = true) := by
  intro hc
  have hdot0 : '.' ∈ (pyStr (PyVal.float q)).data := by
    simp [pyStr, floatRepr]
  have hdot1 : '.' ∈ (pyStrip (pyStr (PyVal.float q))).data :=
    pyStrip_mem (by decide) hdot0
  have hdot2 : '.' ∈ (pyUpper (pyStrip (pyStr (PyVal.float q)))).data := by
    show '.' ∈ (pyStrip (pyStr (PyVal.float q))).data.map Char.toUpper
    have hmap := List.mem_map_of_mem Char.toUpper hdot1
    rw [show Char.toUpper '.' = '.' from by decide] at hmap
    exact hmap
  have hmem : pyUpper (pyStrip (pyStr (PyVal.float q))) ∈ temp_placeholders :=
    List.mem_of_elem_eq_true hc
  simp only [temp_placeholders, List.mem_cons, List.not_mem_nil, or_false] at hmem
  rcases hmem with e | e | e | e | e <;> rw [e] at hdot2 <;>
    exact absurd hdot2 (by decide)

theorem validate_temperature_float (q : Rat) :
    validate_temperature (PyVal.float q) = some q := by
  unfold validate_temperature
  have h1 : ¬(PyVal.float q = PyVal.none ∨ PyVal.float q = PyVal.str "") := by
    rintro (e | e) <;> cases e
  rw [if_neg h1, if_neg (float_temp_placeholder_free q)]
  rfl

theorem pyGet_to_dict_patient_id (p : Patient) :
    pyGet p.to_dict "patient_id" = PyVal.str p.patient_id := rfl

theorem pyGet_to_dict_age (p : Patient) :
    pyGet p.to_dict "age"
      = (match p.age with | some n => PyVal.int n | Option.none => PyVal.none) := rfl

theorem pyGet_to_dict_bp (p : Patient) :
    pyGet p.to_dict "blood_pressure"
      = (match p.blood_pressure with
         | some s => PyVal.str s | Option.none => PyVal.none) := rfl

theorem pyGet_to_dict_temp (p : Patient) :
    pyGet p.to_dict "temperature"
      = (match p.temperature with
         | some q => PyVal.float q | Option.none => PyVal.none) := rfl

/-- Claim C8: the sanitizer is idempotent: re-sanitizing the raw form
(`Patient.to_dict`) of an already-sanitized record yields the same canonical
patient, field for field. -/
theorem sanitize_patient_idempotent (x : PyDict) :
    sanitize_patient ((sanitize_patient x).to_dict) = sanitize_patient x := by
  have hage : ∀ v : Option Int,
      validate_age (match v with
        | some n => PyVal.int n | Option.none => PyVal.none) = v := by
    rintro (_ | n) <;> rfl
  have htemp : ∀ v : Option Rat,
      validate_temperature (match v with
        | some q => PyVal.float q | Option.none => PyVal.none) = v := by
    rintro (_ | q)
    · rfl
    · exact validate_temperature_float q
  have hbp : ∀ w : PyVal,
      validate_blood_pressure
          (match validate_blood_pressure w with
           | some s => PyVal.str s | Option.none => PyVal.none)
        = validate_blood_pressure w := by
    intro w
    cases hw : validate_blood_pressure w with
    | none => rfl
    | some s => exact validate_bp_roundtrip hw
  unfold sanitize_patient
  simp only [pyGet_to_dict_patient_id, pyGet_to_dict_age, pyGet_to_dict_bp,
    pyGet_to_dict_temp, Patient.mk.injEq]
  exact ⟨rfl, hage _, hbp _, htemp _⟩

/-- Claim C6 counterexample: against `oracle429`, page 2's ten attempts are
all rate-limited (HTTP 429) — its retries are exhausted after the longer
backoff waits `2 · 2^attempt` — yet the fetcher does not stop pagination: it
goes on to request page 3 and returns page 3's record in addition to page
1's, instead of exactly the records accumulated before the abandonment. -/
theorem fetch_429_exhaustion_counterexample :
    runAttempts oracle429 2 (List.range max_retries)
        = (PageOutcome.fellThrough, [2, 4, 8, 16, 32, 64, 128, 256, 512, 1024])
      ∧ (getPatients oracle429 5).1
        = [[("patient_id", PyVal.str "p1"), ("age", PyVal.none),
            ("blood_pressure", PyVal.none), ("temperature", PyVal.none)],
           [("patient_id", PyVal.str "p3"), ("age", PyVal.none),
            ("blood_pressure", PyVal.none), ("temperature", PyVal.none)]] :=
  ⟨by decide, by decide⟩

/-- Claim C6 amended: per-page retry semantics of `routes.getPatients`.  A
page whose attempts all fail at the transport level, or all return HTTP 5xx,
is retried with the standard exponential backoff `backoff_factor · 2^attempt`
and abandoned on the final attempt; a non-429 HTTP 4xx abandons the page
immediately without retry; and in every such abandonment the `while` loop
ends (`has_next` forced false) with the fetcher returning exactly the records
accumulated from the pages fetched before.  However — contrary to the claim —
a page whose attempts are all rate-limited (HTTP 429, longer backoff
`2 · 2^attempt`, same maximum attempt count) does not stop pagination:
`has_next` keeps its previous value, so the fetcher skips only that page's
records and continues with the next page. -/
theorem fetch_retry_abandon_semantics (oracle : Nat → Nat → HttpResp)
    (fuel page : Nat) (acc : List PyDict) (waits : List Nat) :
    ((∀ a, a < max_retries → oracle page a = HttpResp.exn) →
        runAttempts oracle page (List.range max_retries)
          = (PageOutcome.abandon, [1, 2, 4, 8, 16, 32, 64, 128, 256]))
      ∧ ((∀ a, a < max_retries → oracle page a = HttpResp.status 500) →
        runAttempts oracle page (List.range max_retries)
          = (PageOutcome.abandon, [1, 2, 4, 8, 16, 32, 64, 128, 256]))
      ∧ ((∀ a, a < max_retries → oracle page a = HttpResp.status 429) →
        runAttempts oracle page (List.range max_retries)
          = (PageOutcome.fellThrough, [2, 4, 8, 16, 32, 64, 128, 256, 512, 1024]))
      ∧ (oracle page 0 = HttpResp.status 404 →
        runAttempts oracle page (List.range max_retries) = (PageOutcome.abandon, []))
      ∧ (∀ ws, runAttempts oracle page (List.range max_retries)
            = (PageOutcome.abandon, ws) →
          fetchLoop oracle (fuel + 1) page acc waits = (acc, waits ++ ws))
      ∧ (∀ ws, runAttempts oracle page (List.range max_retries)
            = (PageOutcome.fellThrough, ws) →
          fetchLoop oracle (fuel + 1) page acc waits
            = fetchLoop oracle fuel (page + 1) acc (waits ++ ws ++ [1])) := by
  have hrange : List.range max_retries = [0, 1, 2, 3, 4, 5, 6, 7, 8, 9] := rfl
  refine ⟨?_, ?_, ?_, ?_, ?_, ?_⟩
  · intro hall
    have h0 := hall 0 (by decide)
    have h1 := hall 1 (by decide)
    have h2 := hall 2 (by decide)
    have h3 := hall 3 (by decide)
    have h4 := hall 4 (by decide)
    have h5 := hall 5 (by decide)
    have h6 := hall 6 (by decide)
    have h7 := hall 7 (by decide)
    have h8 := hall 8 (by decide)
    have h9 := hall 9 (by decide)
    rw [hrange]
    simp [runAttempts, h0, h1, h2, h3, h4, h5, h6, h7, h8, h9, backoff_factor]
  · intro hall
    have h0 := hall 0 (by decide)
    have h1 := hall 1 (by decide)
    have h2 := hall 2 (by decide)
    have h3 := hall 3 (by decide)
    have h4 := hall 4 (by decide)
    have h5 := hall 5 (by decide)
    have h6 := hall 6 (by decide)
    have h7 := hall 7 (by decide)
    have h8 := hall 8 (by decide)
    have h9 := hall 9 (by decide)
    rw [hrange]
    simp [runAttempts, h0, h1, h2, h3, h4, h5, h6, h7, h8, h9, backoff_factor]
  · intro hall
    have h0 := hall 0 (by decide)
    have h1 := hall 1 (by decide)
    have h2 := hall 2 (by decide)
    have h3 := hall 3 (by decide)
    have h4 := hall 4 (by decide)
    have h5 := hall 5 (by decide)
    have h6 := hall 6 (by decide)
    have h7 := hall 7 (by decide)
    have h8 := hall 8 (by decide)
    have h9 := hall 9 (by decide)
    rw [hrange]
    simp [runAttempts, h0, h1, h2, h3, h4, h5, h6, h7, h8, h9]
  · intro h0
    rw [hrange]
    simp [runAttempts, h0]
  · intro ws hw
    simp [fetchLoop, hw]
  · intro ws hw
    simp [fetchLoop, hw]

/-- Witness for `fetch_retry_abandon_semantics` on concrete constant
oracles. -/
theorem fetch_retry_abandon_semantics_witness :
    runAttempts (fun _ _ => HttpResp.exn) 1 (List.range max_retries)
        = (PageOutcome.abandon, [1, 2, 4, 8, 16, 32, 64, 128, 256])
      ∧ runAttempts (fun _ _ => HttpResp.status 500) 1 (List.range max_retries)
        = (PageOutcome.abandon, [1, 2, 4, 8, 16, 32, 64, 128, 256])
      ∧ runAttempts (fun _ _ => HttpResp.status 429) 1 (List.range max_retries)
        = (PageOutcome.fellThrough, [2, 4, 8, 16, 32, 64, 128, 256, 512, 1024])
      ∧ runAttempts (fun _ _ => HttpResp.status 404) 1 (List.range max_retries)
        = (PageOutcome.abandon, [])
      ∧ fetchLoop (fun _ _ => HttpResp.status 404) 1 1 [] [] = ([], [])
      ∧ fetchLoop (fun _ _ => HttpResp.status 429) 1 1 [] []
        = fetchLoop (fun _ _ => HttpResp.status 429) 0 2 []
            ([] ++ [2, 4, 8, 16, 32, 64, 128, 256, 512, 1024] ++ [1]) :=
  ⟨(fetch_retry_abandon_semantics (fun _ _ => HttpResp.exn) 0 1 [] []).1
      (fun _ _ => rfl),
   (fetch_retry_abandon_semantics (fun _ _ => HttpResp.status 500) 0 1 [] []).2.1
      (fun _ _ => rfl),
   (fetch_retry_abandon_semantics (fun _ _ => HttpResp.status 429) 0 1 [] []).2.2.1
      (fun _ _ => rfl),
   (fetch_retry_abandon_semantics (fun _ _ => HttpResp.status 404) 0 1 [] []).2.2.2.1
      rfl,
   (fetch_retry_abandon_semantics (fun _ _ => HttpResp.status 404) 0 1 [] []).2.2.2.2.1
      []
      ((fetch_retry_abandon_semantics (fun _ _ => HttpResp.status 404) 0 1 [] []).2.2.2.1
        rfl),
   (fetch_retry_abandon_semantics (fun _ _ => HttpResp.status 429) 0 1 [] []).2.2.2.2.2
      [2, 4, 8, 16, 32, 64, 128, 256, 512, 1024]
      ((fetch_retry_abandon_semantics (fun _ _ => HttpResp.status 429) 0 1 [] []).2.2.1
        (fun _ _ => rfl))⟩

